import Mathlib

/-!
Verification development for the ngdi-v1 authentication/session core.

The definitions below are a shallow embedding of the TypeScript source:

* `src/app/metadata/add/components/metadata-form.tsx` — the auth client
  (two variants of `validateJwtToken`, the validation cache
  `getCachedValidation` / `cacheValidationResult`, and `authClient.getSession`);
* `src/middleware.ts` — the edge middleware;
* `src/lib/auth.ts` — `requireAuth` / `requireRole`;
* `src/packages/api/src/services/auth.service.ts` — `AuthService.login` and
  `AuthService.resetPassword`.

JavaScript dynamic values are embedded as follows: machine numbers
(millisecond timestamps, second-granularity `exp` claims) are `Nat`;
possibly-absent object fields are `Option`; JS string truthiness
(`if (x)` on a string) is `Option.getD x "" ≠ ""`; thrown exceptions /
HTTP error responses are `Except` errors carrying `(status, message)`.
The `jose.decodeJwt` library call is embedded as: require exactly three
dot-separated segments, then run an abstract payload parser
(base64url + JSON decoding is kept abstract as a function parameter,
`none` modelling a parse failure, i.e. a thrown exception).
-/

/-- The `UserRole` enum from `prisma/schema.prisma` (values USER, ADMIN,
NODE_OFFICER), also used by `lib/auth/constants`. -/
inductive UserRole where
  | USER : UserRole
  | ADMIN : UserRole
  | NODE_OFFICER : UserRole
deriving DecidableEq, Repr

/-- The string name of a canonical role, as the TS enum values are strings. -/
def UserRole.str : UserRole → String
  | .USER => "USER"
  | .ADMIN => "ADMIN"
  | .NODE_OFFICER => "NODE_OFFICER"

/-- Modelled from the spec: `isValidRole` from the missing
`lib/auth/constants` module — membership of a raw string in the canonical
role set {USER, ADMIN, NODE_OFFICER}. -/
def isValidRole (r : String) : Bool :=
  r = "USER" || r = "ADMIN" || r = "NODE_OFFICER"

/-- Conversion of a canonical role string to the enum (used where the TS
code casts a validated role string to `UserRole`). -/
def strToRole (r : String) : UserRole :=
  if r = "ADMIN" then .ADMIN
  else if r = "NODE_OFFICER" then .NODE_OFFICER
  else .USER

/-- JS `String.prototype.toUpperCase` (ASCII range, which covers every
string the source compares against), as a kernel-reducible char map. -/
def jsToUpper (s : String) : String := String.mk (s.data.map Char.toUpper)

/-- Split a character list at every occurrence of the separator character
(JS `String.prototype.split` semantics: `"" → [""]`, empty runs kept). -/
def splitOnCharAux (c : Char) : List Char → List (List Char)
  | [] => [[]]
  | x :: xs =>
    let r := splitOnCharAux c xs
    if x = c then [] :: r
    else
      match r with
      | [] => [[x]]
      | y :: ys => (x :: y) :: ys

/-- JS `token.split(".")`, kernel-reducible. -/
def jsSplitOnDot (s : String) : List String := (splitOnCharAux '.' s.data).map String.mk

/-- JS `String.prototype.trim` (drop whitespace at both ends),
kernel-reducible. -/
def jsTrim (s : String) : String :=
  String.mk (((s.data.dropWhile Char.isWhitespace).reverse.dropWhile Char.isWhitespace).reverse)

/-- JS `path.startsWith(p)`, kernel-reducible. -/
def jsStartsWith (s p : String) : Bool := p.data.isPrefixOf s.data

/-- JS `token.includes(".")`, kernel-reducible. -/
def jsContainsDot (s : String) : Bool := s.data.contains '.'

/-- JWT payload claims accessed by the source (`jose.decodeJwt` result):
`sub`, `userId`, `email`, `role`, `name`, `exp`. Absent fields are `none`. -/
structure JwtClaims where
  sub : Option String := none
  userId : Option String := none
  email : Option String := none
  role : Option String := none
  name : Option String := none
  exp : Option Nat := none
deriving DecidableEq, Repr

/-- `jose.decodeJwt`: throws unless the token has exactly three
dot-separated segments, then base64url+JSON-parses the middle segment.
The payload parser is abstract (`parse`); `none` models a throw. -/
def decodeJwt (parse : String → Option JwtClaims) (token : String) :
    Option JwtClaims :=
  if (jsSplitOnDot token).length = 3 then
    parse (((jsSplitOnDot token).get? 1).getD "")
  else
    none

/-- JS `a || b` on two possibly-absent strings followed by use as a string:
returns the first truthy (nonempty, present) value, else `b` or `""`. -/
def jsOrStr (a b : Option String) : String :=
  match a with
  | some s => if s = "" then (b.getD "") else s
  | none => b.getD ""

/-- JS truthiness of a possibly-absent string. -/
def jsTruthyStr (s : Option String) : Bool := s.getD "" ≠ ""

/-- JS `decoded.exp && decoded.exp < currentTime`: the expiry test fires
only when `exp` is present and nonzero (0 is falsy in JS). -/
def jsExpired (exp : Option Nat) (currentTime : Nat) : Bool :=
  match exp with
  | some e => e ≠ 0 && e < currentTime
  | none => false

/-- Role normalization block of the first (uncached) `validateJwtToken`
(metadata-form.tsx lines 302–347): case-insensitive canonical names,
legacy numeric codes "0"/"1"/"2", explicit lower/mixed-case aliases;
unrecognized or absent role defaults to USER. -/
def roleFromTokenValue (rv : Option String) : UserRole :=
  if jsTruthyStr rv then
    let s := rv.getD ""
    if jsToUpper s = "ADMIN" ∨ s = "0" ∨ s = "admin" ∨ s = "Admin" then
      .ADMIN
    else if jsToUpper s = "NODE_OFFICER" ∨ s = "1" ∨ s = "node_officer" ∨ s = "NodeOfficer" then
      .NODE_OFFICER
    else if jsToUpper s = "USER" ∨ s = "2" ∨ s = "user" ∨ s = "User" then
      .USER
    else
      .USER
  else
    .USER

/-- Role normalization block of the second, cached `validateJwtToken`
(metadata-form.tsx lines 904–920, "Simplified role handling"): only the
case-insensitive canonical ADMIN / NODE_OFFICER names are recognized;
everything else (including the legacy numeric codes) becomes USER. -/
def roleFromTokenValueCached (rv : Option String) : UserRole :=
  if jsTruthyStr rv then
    let s := rv.getD ""
    if jsToUpper s = "ADMIN" then .ADMIN
    else if jsToUpper s = "NODE_OFFICER" then .NODE_OFFICER
    else .USER
  else
    .USER

/-- Result shape of `validateJwtToken`:
`{isValid, userId?, email?, role?, error?}`. -/
structure ValidationResult where
  isValid : Bool
  userId : Option String := none
  email : Option String := none
  role : Option UserRole := none
  error : Option String := none
deriving DecidableEq, Repr

/-- One entry of the module-level `localValidationCache` array:
`{token, result, timestamp}` (timestamp in ms). -/
structure CacheEntry where
  token : String
  result : ValidationResult
  timestamp : Nat
deriving DecidableEq, Repr

/-- `MAX_CACHE_SIZE` from metadata-form.tsx. -/
def MAX_CACHE_SIZE : Nat := 5

/-- `getCachedValidation` (metadata-form.tsx lines 782–803): sweep entries
older than 5 minutes (300000 ms), then look the token up among the
survivors. Returns the found result (if any) and the swept cache, since
the JS function mutates the module-level array in place. -/
def getCachedValidation (nowMs : Nat) (cache : List CacheEntry)
    (token : String) : Option ValidationResult × List CacheEntry :=
  let validEntries := cache.filter (fun e => nowMs - e.timestamp < 5 * 60 * 1000)
  match validEntries.find? (fun e => e.token = token) with
  | some e => (some e.result, validEntries)
  | none => (none, validEntries)

/-- `cacheValidationResult` (metadata-form.tsx lines 806–826): if the cache
is at capacity, `shift()` the oldest (front) entry, then push the new entry
at the back. -/
def cacheValidationResult (nowMs : Nat) (cache : List CacheEntry)
    (token : String) (result : ValidationResult) : List CacheEntry :=
  let c := if MAX_CACHE_SIZE ≤ cache.length then cache.tail else cache
  c ++ [{ token := token, result := result, timestamp := nowMs }]

/-- The first (uncached) `validateJwtToken` (metadata-form.tsx lines
256–366): empty-token check, dot-presence check, `jose.decodeJwt` (throw
caught as invalid), expiry check, userId extraction (`sub || userId`),
email default, role normalization. -/
def validateJwtTokenUncached (parse : String → Option JwtClaims)
    (nowMs : Nat) (token : String) : ValidationResult :=
  if jsTrim token = "" then
    { isValid := false, error := some "Empty token provided" }
  else if !(jsContainsDot token) then
    { isValid := false, error := some "Invalid token format (not a JWT)" }
  else
    match decodeJwt parse token with
    | none => { isValid := false, error := some "Invalid JWT format" }
    | some decoded =>
      let currentTime := nowMs / 1000
      if jsExpired decoded.exp currentTime then
        { isValid := false, error := some "Token expired" }
      else
        let userId := jsOrStr decoded.sub decoded.userId
        if userId = "" then
          { isValid := false, error := some "Token missing user ID" }
        else
          { isValid := true
            userId := some userId
            email := some (jsOrStr decoded.email (some "unknown"))
            role := some (roleFromTokenValue decoded.role) }

/-- The second, cached `validateJwtToken` (metadata-form.tsx lines
852–942): consult the cache first and return any hit unchanged; otherwise
run the same checks as the uncached variant (with the simplified role
handling) and cache every result, success or failure. Returns the result
and the updated cache. -/
def validateJwtToken (parse : String → Option JwtClaims) (nowMs : Nat)
    (cache : List CacheEntry) (token : String) :
    ValidationResult × List CacheEntry :=
  match getCachedValidation nowMs cache token with
  | (some cached, cache1) => (cached, cache1)
  | (none, cache1) =>
    if jsTrim token = "" then
      let r : ValidationResult := { isValid := false, error := some "Empty token provided" }
      (r, cacheValidationResult nowMs cache1 token r)
    else if !(jsContainsDot token) then
      let r : ValidationResult := { isValid := false, error := some "Invalid token format (not a JWT)" }
      (r, cacheValidationResult nowMs cache1 token r)
    else
      match decodeJwt parse token with
      | none =>
        let r : ValidationResult := { isValid := false, error := some "Invalid JWT format" }
        (r, cacheValidationResult nowMs cache1 token r)
      | some decoded =>
        let currentTime := nowMs / 1000
        if jsExpired decoded.exp currentTime then
          let r : ValidationResult := { isValid := false, error := some "Token expired" }
          (r, cacheValidationResult nowMs cache1 token r)
        else
          let userId := jsOrStr decoded.sub decoded.userId
          if userId = "" then
            let r : ValidationResult := { isValid := false, error := some "Token missing user ID" }
            (r, cacheValidationResult nowMs cache1 token r)
          else
            let r : ValidationResult :=
              { isValid := true
                userId := some userId
                email := some (jsOrStr decoded.email (some "unknown"))
                role := some (roleFromTokenValueCached decoded.role) }
            (r, cacheValidationResult nowMs cache1 token r)

/-- The `User` part of a `Session` (metadata-form.tsx `Session` interface):
`{id, email, name, role}` as built by `getSession`. -/
structure SessionUser where
  id : String
  email : String
  name : String
  role : UserRole
deriving DecidableEq, Repr

/-- A client `Session`: `{user, expires, accessToken, refreshToken}`.
The ISO `expires` string is embedded by its underlying epoch-millisecond
value (`new Date(ms).toISOString()` is injective on ms). -/
structure Session where
  user : Option SessionUser
  expiresMs : Nat
  accessToken : String
  refreshToken : String
deriving DecidableEq, Repr

/-- Response of the `/api/auth/check` probe consumed by `getSession`:
HTTP `ok` flag plus the JSON body fields `authenticated` and `user`. -/
structure CheckResponse where
  ok : Bool
  authenticated : Bool
  user : Option SessionUser
deriving DecidableEq, Repr

/-- Mutable module-level auth-client state read and written by
`getSession`: the two cookies, `lastSessionRefreshTimestamp`, and the
single-flight `pendingSessionRefresh` promise. A pending promise is
embedded by its eventual value (`Option Session`). -/
structure AuthClientState where
  authCookie : Option String
  refreshCookie : Option String
  lastSessionRefreshTimestamp : Nat
  pendingSessionRefresh : Option (Option Session)
deriving DecidableEq, Repr

/-- The `expires` field computed by `getSession`:
`decoded.exp ? new Date(exp*1000) : new Date(now + 3600*1000)` — note the
JS truthiness of `exp` (0 falls back). -/
def sessionExpiresMs (exp : Option Nat) (nowMs : Nat) : Nat :=
  match exp with
  | some e => if e ≠ 0 then e * 1000 else nowMs + 3600 * 1000
  | none => nowMs + 3600 * 1000

/-- The role assignment used by `getSession`'s client-built sessions:
`let role = decoded.role as UserRole; if (!isValidRole(role)) role = USER`. -/
def sessionRole (role : Option String) : UserRole :=
  match role with
  | some r => if isValidRole r then strToRole r else .USER
  | none => .USER

/-- Session built by `getSession` directly from decoded token claims (both
the 5-second-throttle shortcut and the client-decode fallback build this
same shape). -/
def sessionFromClaims (decoded : JwtClaims) (token : String)
    (refreshCookie : Option String) (nowMs : Nat) : Session :=
  { user := some
      { id := jsOrStr decoded.sub decoded.userId
        email := jsOrStr decoded.email (some "unknown")
        name := decoded.name.getD ""
        role := sessionRole decoded.role }
    expiresMs := sessionExpiresMs decoded.exp nowMs
    accessToken := token
    refreshToken := refreshCookie.getD "" }

/-- `authClient.getSession` (metadata-form.tsx lines 1265–1485).
Inputs beyond the state: the abstract JWT payload parser, the current
time, `navigator.onLine`, the outcome of `Math.random() < 0.2`
(`rand20`), and the `/api/auth/check` response oracle (`none` models the
fetch throwing or timing out). Returns the session result, the new
module-level state, and the number of network calls issued. -/
def getSession (parse : String → Option JwtClaims) (nowMs : Nat)
    (online : Bool) (rand20 : Bool) (server : Option CheckResponse)
    (st : AuthClientState) : Option Session × AuthClientState × Nat :=
  let token := st.authCookie
  let refreshToken := st.refreshCookie
  -- If both tokens are missing, immediately return null and reset state
  if token = none ∧ refreshToken = none then
    (none, { st with lastSessionRefreshTimestamp := 0, pendingSessionRefresh := none }, 0)
  else
    -- If a refresh is already in progress, return that promise
    match st.pendingSessionRefresh with
    | some v => (v, st, 0)
    | none =>
      -- 5-second throttle: reuse the decoded cookie token without a network call
      let throttleShortcut : Option Session :=
        if nowMs - st.lastSessionRefreshTimestamp < 5000 then
          match token with
          | some t =>
            match decodeJwt parse t with
            | some decoded =>
              if jsExpired decoded.exp (nowMs / 1000) then none
              else some (sessionFromClaims decoded t refreshToken nowMs)
            | none => none
          | none => none
        else none
      match throttleShortcut with
      | some s => (some s, st, 0)
      | none =>
        -- Start a new session refresh (created and awaited; the pending
        -- promise is cleared once it settles)
        let inner : Option Session × Nat × Nat :=
          match token with
          | none => (none, st.lastSessionRefreshTimestamp, 0)
          | some t =>
            match decodeJwt parse t with
            | none => (none, st.lastSessionRefreshTimestamp, 0)
            | some decoded =>
              if jsExpired decoded.exp (nowMs / 1000) then
                (none, st.lastSessionRefreshTimestamp, 0)
              else if jsOrStr decoded.sub decoded.userId ≠ "" then
                if online ∧ rand20 then
                  match server with
                  | some resp =>
                    if resp.ok then
                      match resp.user with
                      | some u =>
                        if resp.authenticated then
                          (some { user := some u
                                  expiresMs := sessionExpiresMs decoded.exp nowMs
                                  accessToken := t
                                  refreshToken := refreshToken.getD "" },
                           nowMs, 1)
                        else (none, st.lastSessionRefreshTimestamp, 1)
                      | none => (none, st.lastSessionRefreshTimestamp, 1)
                    else
                      -- non-ok response falls through to the client-side session
                      (some (sessionFromClaims decoded t refreshToken nowMs), nowMs, 1)
                  | none =>
                    -- fetch threw or timed out: fall back to the client-side session
                    (some (sessionFromClaims decoded t refreshToken nowMs), nowMs, 1)
                else
                  (some (sessionFromClaims decoded t refreshToken nowMs), nowMs, 0)
              else
                (none, st.lastSessionRefreshTimestamp, 0)
        (inner.fst,
         { st with lastSessionRefreshTimestamp := inner.snd.fst,
                   pendingSessionRefresh := none },
         inner.snd.snd)

/-- Decision produced by the edge middleware (`src/middleware.ts`):
pass through (`NextResponse.next()`), pass through with the three
`x-user-*` identity headers set, redirect to the onboarding page
(`/auth/new-user`), or redirect to `/auth/signin?from=<path>`. -/
inductive MwDecision where
  | next : MwDecision
  | nextWithHeaders (userId email role : String) : MwDecision
  | redirectOnboarding : MwDecision
  | redirectSignin (fromPath : String) : MwDecision
deriving DecidableEq, Repr

/-- Protected-route test from `src/middleware.ts` lines 134–137:
exact match or prefix match (`path.startsWith(route + "/")`) against the
configured `PROTECTED_ROUTES` list. -/
def isProtectedRoute (protectedRoutes : List String) (path : String) : Bool :=
  protectedRoutes.any (fun route => path = route || jsStartsWith path (route ++ "/"))

/-- Pass-through classes of `src/middleware.ts` lines 50–72: auth routes,
API routes, and static-asset paths. -/
def isPassThroughPath (path : String) : Bool :=
  jsStartsWith path "/auth" || jsStartsWith path "/api" ||
    jsStartsWith path "/_next" || jsStartsWith path "/favicon.ico" ||
    jsStartsWith path "/images/" || jsStartsWith path "/fonts/" ||
    jsStartsWith path "/assets/"

/-- The token block of the middleware (lines 87–129): runs only when the
cookie token has exactly three dot-separated segments; decodes it (a throw
is caught and ignored), computes the identity headers (set only when a
user id was found), and decides the NODE_OFFICER onboarding redirect.
Returns (headers, onboarding-redirect flag). -/
def mwTokenBlock (parse : String → Option JwtClaims)
    (onboarded : String → Bool) (nowMs : Nat) (cache : List CacheEntry)
    (path : String) (t : String) : Option (String × String × String) × Bool :=
  if (jsSplitOnDot t).length = 3 then
    match decodeJwt parse t with
    | some decoded =>
      let userId :=
        match decoded.sub with
        | some s => s
        | none => match decoded.userId with
          | some s => s
          | none => ""
      let email := decoded.email.getD "unknown"
      let role := decoded.role.getD "USER"
      let headers := if userId ≠ "" then some (userId, email, role) else none
      let tokenData := (validateJwtToken parse nowMs cache t).fst
      let redirectOnb :=
        tokenData.isValid ∧ role = "NODE_OFFICER" ∧
          ¬ onboarded userId ∧ ¬ jsStartsWith path "/auth/new-user"
      (headers, redirectOnb)
    | none => (none, false)
  else (none, false)

/-- The edge middleware (`src/middleware.ts` lines 43–152) as a decision
function over the request path and cookie state. `onboarded` is the
side-channel profile fetch (`hasCompletedOnboarding`); `parse`, `nowMs`
and `cache` feed the token decode and `validateJwtToken`. -/
def middleware (protectedRoutes : List String)
    (parse : String → Option JwtClaims) (onboarded : String → Bool)
    (nowMs : Nat) (cache : List CacheEntry)
    (path : String) (authToken : Option String) : MwDecision :=
  if jsStartsWith path "/auth" then .next
  else if jsStartsWith path "/api" then .next
  else if jsStartsWith path "/_next" || jsStartsWith path "/favicon.ico" ||
      jsStartsWith path "/images/" || jsStartsWith path "/fonts/" ||
      jsStartsWith path "/assets/" then .next
  else
    match authToken with
    | some t =>
      match mwTokenBlock parse onboarded nowMs cache path t with
      | (headers, redirectOnb) =>
        if redirectOnb then .redirectOnboarding
        else
          match headers with
          | some (u, e, r) => .nextWithHeaders u e r
          | none => .next
    | none =>
      if isProtectedRoute protectedRoutes path then .redirectSignin path
      else .next

/-- User object returned by `requireAuth` (`src/lib/auth.ts` lines 34–40). -/
structure AuthUser where
  id : String
  email : String
  name : String
  role : UserRole
deriving DecidableEq, Repr

/-- `requireAuth` (`src/lib/auth.ts` lines 11–48): missing cookie or
invalid token redirects to `/auth/signin` (with a `from` parameter when a
`redirectTo` was supplied); otherwise builds the user from the validation
result with defaults. A redirect is embedded as an `Except` error carrying
the target path. -/
def requireAuth (parse : String → Option JwtClaims) (nowMs : Nat)
    (cache : List CacheEntry) (authToken : Option String)
    (redirectTo : Option String) : Except String AuthUser :=
  let signinPath :=
    match redirectTo with
    | some rt => "/auth/signin?from=" ++ rt
    | none => "/auth/signin"
  match authToken with
  | none => .error signinPath
  | some t =>
    let validationResult := (validateJwtToken parse nowMs cache t).fst
    if validationResult.isValid = false then .error signinPath
    else
      .ok { id := validationResult.userId.getD "unknown-id"
            email := validationResult.email.getD "unknown@example.com"
            name := "Authenticated User"
            role := validationResult.role.getD .USER }

/-- `requireRole` (`src/lib/auth.ts` lines 53–81): a redirect raised by
`requireAuth` is caught by the surrounding try/catch and becomes a
redirect to `/unauthorized`; an ADMIN user is always granted access before
the `allowedRoles` check; a non-ADMIN user whose role is not in
`allowedRoles` is redirected to `/unauthorized`. -/
def requireRole (parse : String → Option JwtClaims) (nowMs : Nat)
    (cache : List CacheEntry) (authToken : Option String)
    (allowedRoles : List UserRole) : Except String AuthUser :=
  match requireAuth parse nowMs cache authToken none with
  | .error _ => .error "/unauthorized"
  | .ok user =>
    if user.role = .ADMIN then .ok user
    else if !(allowedRoles.contains user.role) then .error "/unauthorized"
    else .ok user

/-- A row of the Prisma `User` table, with the fields read by
`AuthService.login` / `resetPassword`. -/
structure DbUser where
  id : String
  email : String
  password : String
  name : Option String
  role : UserRole
  organization : Option String
  department : Option String
deriving DecidableEq, Repr

/-- The user payload of `AuthResponse` as assembled by `AuthService.login`. -/
structure AuthUserView where
  id : String
  name : String
  email : String
  role : UserRole
  organization : Option String
  department : Option String
deriving DecidableEq, Repr

/-- `AuthResponse` from `AuthService.login` / `register`. -/
structure AuthResponse where
  user : AuthUserView
  accessToken : String
  refreshToken : String
deriving DecidableEq, Repr

/-- `AuthService.login` (`auth.service.ts` lines 50–99): look the user up
by email (`prisma.user.findUnique`), throw `HTTPException(401, "Invalid
credentials")` when absent; compare the password (bcrypt `compare`,
abstract as `cmp`), throw the same 401 on mismatch; otherwise sign the two
tokens (abstract `signAccess` / `signRefresh`) and return the response.
`mapPrismaRoleToAppRole` is the identity on the three shared role values. -/
def AuthService.login (db : List DbUser) (cmp : String → String → Bool)
    (signAccess signRefresh : DbUser → String)
    (email password : String) : Except (Nat × String) AuthResponse :=
  match db.find? (fun u => u.email = email) with
  | none => .error (401, "Invalid credentials")
  | some user =>
    if !(cmp password user.password) then
      .error (401, "Invalid credentials")
    else
      .ok { user := { id := user.id
                      name := user.name.getD ""
                      email := user.email
                      role := user.role
                      organization := user.organization
                      department := user.department }
            accessToken := signAccess user
            refreshToken := signRefresh user }

/-- A row of the Prisma `VerificationToken` table:
`{identifier, token, expires}` (expiry as epoch ms). -/
structure VerificationToken where
  identifier : String
  token : String
  expires : Nat
deriving DecidableEq, Repr

/-- The slice of the database touched by `AuthService.resetPassword`. -/
structure ResetDb where
  tokens : List VerificationToken
  users : List DbUser
deriving DecidableEq, Repr

/-- `AuthService.resetPassword` (`auth.service.ts` lines 228–269): find
the verification token (absent → `ApiError("Invalid or expired token",
400)`); if past expiry, delete it and throw `ApiError("Token has expired",
400)`; find the user by the token's identifier (absent → 404); hash the
new password (abstract `hashPw`), update the user, delete the token.
Returns the outcome together with the post-state of the database. -/
def AuthService.resetPassword (hashPw : String → String) (now : Nat)
    (token newPassword : String) (db : ResetDb) :
    Except (Nat × String) Unit × ResetDb :=
  match db.tokens.find? (fun vt => vt.token = token) with
  | none => (.error (400, "Invalid or expired token"), db)
  | some verificationToken =>
    if verificationToken.expires < now then
      (.error (400, "Token has expired"),
       { db with tokens := db.tokens.filter (fun vt => vt.token ≠ token) })
    else
      match db.users.find? (fun u => u.email = verificationToken.identifier) with
      | none => (.error (404, "User not found"), db)
      | some user =>
        let users1 := db.users.map (fun u =>
          if u.id = user.id then { u with password := hashPw newPassword } else u)
        (.ok (),
         { db with users := users1
                   tokens := db.tokens.filter (fun vt => vt.token ≠ token) })

theorem roleV1_upper_admin (s : String) (h : jsToUpper s = "ADMIN") :
    roleFromTokenValue (some s) = .ADMIN := by
  have hne : s ≠ "" := by intro h0; subst h0; exact absurd h (by decide)
  simp [roleFromTokenValue, jsTruthyStr, hne, h]

theorem roleV1_upper_no (s : String) (h : jsToUpper s = "NODE_OFFICER") :
    roleFromTokenValue (some s) = .NODE_OFFICER := by
  have hne : s ≠ "" := by intro h0; subst h0; exact absurd h (by decide)
  have h0 : s ≠ "0" := by intro he; subst he; exact absurd h (by decide)
  have ha : s ≠ "admin" := by intro he; subst he; exact absurd h (by decide)
  have hA : s ≠ "Admin" := by intro he; subst he; exact absurd h (by decide)
  have hu : jsToUpper s ≠ "ADMIN" := by rw [h]; decide
  simp [roleFromTokenValue, jsTruthyStr, hne, h, h0, ha, hA, hu]

theorem roleV1_upper_user (s : String) (h : jsToUpper s = "USER") :
    roleFromTokenValue (some s) = .USER := by
  have hne : s ≠ "" := by intro h0; subst h0; exact absurd h (by decide)
  have h0 : s ≠ "0" := by intro he; subst he; exact absurd h (by decide)
  have ha : s ≠ "admin" := by intro he; subst he; exact absurd h (by decide)
  have hA : s ≠ "Admin" := by intro he; subst he; exact absurd h (by decide)
  have h1 : s ≠ "1" := by intro he; subst he; exact absurd h (by decide)
  have hn : s ≠ "node_officer" := by intro he; subst he; exact absurd h (by decide)
  have hN : s ≠ "NodeOfficer" := by intro he; subst he; exact absurd h (by decide)
  have hu : jsToUpper s ≠ "ADMIN" := by rw [h]; decide
  have hv : jsToUpper s ≠ "NODE_OFFICER" := by rw [h]; decide
  simp [roleFromTokenValue, jsTruthyStr, hne, h, h0, ha, hA, h1, hn, hN, hu, hv]

theorem roleV1_unrecognized (s : String)
    (h1 : jsToUpper s ≠ "ADMIN") (h2 : jsToUpper s ≠ "NODE_OFFICER")
    (h3 : jsToUpper s ≠ "USER") (h4 : s ≠ "0") (h5 : s ≠ "1") (h6 : s ≠ "2")
    (h7 : s ≠ "NodeOfficer") :
    roleFromTokenValue (some s) = .USER := by
  have ha : s ≠ "admin" := by intro he; subst he; exact absurd (by decide) h1
  have hA : s ≠ "Admin" := by intro he; subst he; exact absurd (by decide) h1
  have hn : s ≠ "node_officer" := by intro he; subst he; exact absurd (by decide) h2
  have hu : s ≠ "user" := by intro he; subst he; exact absurd (by decide) h3
  have hU : s ≠ "User" := by intro he; subst he; exact absurd (by decide) h3
  by_cases hne : s = ""
  · subst hne; decide
  · simp [roleFromTokenValue, jsTruthyStr, hne, h1, h2, h3, h4, h5, h6, h7, ha, hA, hn, hu, hU]

theorem roleV2_upper_admin (s : String) (h : jsToUpper s = "ADMIN") :
    roleFromTokenValueCached (some s) = .ADMIN := by
  have hne : s ≠ "" := by intro h0; subst h0; exact absurd h (by decide)
  simp [roleFromTokenValueCached, jsTruthyStr, hne, h]

theorem roleV2_upper_no (s : String) (h : jsToUpper s = "NODE_OFFICER") :
    roleFromTokenValueCached (some s) = .NODE_OFFICER := by
  have hne : s ≠ "" := by intro h0; subst h0; exact absurd h (by decide)
  have hu : jsToUpper s ≠ "ADMIN" := by rw [h]; decide
  simp [roleFromTokenValueCached, jsTruthyStr, hne, h, hu]

theorem roleV2_not_admin (s : String) (h1 : jsToUpper s ≠ "ADMIN") :
    roleFromTokenValueCached (some s) = .NODE_OFFICER ∨
      roleFromTokenValueCached (some s) = .USER := by
  by_cases hne : s = ""
  · subst hne; right; decide
  · by_cases h2 : jsToUpper s = "NODE_OFFICER"
    · left; exact roleV2_upper_no s h2
    · right; simp [roleFromTokenValueCached, jsTruthyStr, hne, h1, h2]

theorem roleV2_upper_user (s : String) (h : jsToUpper s = "USER") :
    roleFromTokenValueCached (some s) = .USER := by
  have hne : s ≠ "" := by intro h0; subst h0; exact absurd h (by decide)
  have hu : jsToUpper s ≠ "ADMIN" := by rw [h]; decide
  have hv : jsToUpper s ≠ "NODE_OFFICER" := by rw [h]; decide
  simp [roleFromTokenValueCached, jsTruthyStr, hne, hu, hv]

theorem roleV2_unrecognized (s : String)
    (h1 : jsToUpper s ≠ "ADMIN") (h2 : jsToUpper s ≠ "NODE_OFFICER") :
    roleFromTokenValueCached (some s) = .USER := by
  by_cases hne : s = ""
  · subst hne; decide
  · simp [roleFromTokenValueCached, jsTruthyStr, hne, h1, h2]

/-- Concrete JWT payload parser for a token carrying the legacy numeric
role code "0" in its role claim. -/
def parseRole0 : String → Option JwtClaims := fun s =>
  if s = "p0" then some { sub := some "u1", role := some "0" } else none

/-- C1 counterexample: the cached `validateJwtToken` (the variant at
metadata-form.tsx lines 904–920, cited by the claim) does not map the
legacy numeric role code "0" to ADMIN: on a well-formed token whose role
claim is "0" it returns a valid result whose role is USER, contradicting
the claimed legacy mapping "0"→ADMIN. -/
theorem c1_numeric_role_counterexample :
    (validateJwtToken parseRole0 1000 [] "h.p0.s").fst.isValid = true
    ∧ (validateJwtToken parseRole0 1000 [] "h.p0.s").fst.role = some UserRole.USER
    ∧ some UserRole.USER ≠ some UserRole.ADMIN := by decide

/-- C1 (amended): both token-validation role normalizers are total into
the three canonical roles with USER as the fail-safe default. The first
(uncached) normalizer maps the canonical names case-insensitively, maps
the legacy numeric codes 0→ADMIN, 1→NODE_OFFICER, 2→USER, and maps every
other value — and an absent role — to USER (never to ADMIN); it also
recognizes the literal alias "NodeOfficer". The second (cached) normalizer
maps the canonical names case-insensitively but treats the legacy numeric
codes as unrecognized, mapping them — and every other unrecognized or
absent value — to USER, never to ADMIN. -/
theorem c1_role_normalization_amended (rv sAdm sNo sUsr : String)
    (hAdm : jsToUpper sAdm = "ADMIN") (hNo : jsToUpper sNo = "NODE_OFFICER")
    (hUsr : jsToUpper sUsr = "USER")
    (h1 : jsToUpper rv ≠ "ADMIN") (h2 : jsToUpper rv ≠ "NODE_OFFICER")
    (h3 : jsToUpper rv ≠ "USER") (h4 : rv ≠ "0") (h5 : rv ≠ "1") (h6 : rv ≠ "2")
    (h7 : rv ≠ "NodeOfficer") :
    roleFromTokenValue (some sAdm) = UserRole.ADMIN
    ∧ roleFromTokenValue (some sNo) = UserRole.NODE_OFFICER
    ∧ roleFromTokenValue (some sUsr) = UserRole.USER
    ∧ roleFromTokenValue (some "0") = UserRole.ADMIN
    ∧ roleFromTokenValue (some "1") = UserRole.NODE_OFFICER
    ∧ roleFromTokenValue (some "2") = UserRole.USER
    ∧ roleFromTokenValue (some rv) = UserRole.USER
    ∧ roleFromTokenValue none = UserRole.USER
    ∧ roleFromTokenValueCached (some sAdm) = UserRole.ADMIN
    ∧ roleFromTokenValueCached (some sNo) = UserRole.NODE_OFFICER
    ∧ roleFromTokenValueCached (some sUsr) = UserRole.USER
    ∧ roleFromTokenValueCached (some rv) = UserRole.USER
    ∧ roleFromTokenValueCached (some "0") = UserRole.USER
    ∧ roleFromTokenValueCached (some "1") = UserRole.USER
    ∧ roleFromTokenValueCached (some "2") = UserRole.USER
    ∧ roleFromTokenValueCached none = UserRole.USER := by
  refine ⟨roleV1_upper_admin sAdm hAdm, roleV1_upper_no sNo hNo,
    roleV1_upper_user sUsr hUsr, by decide, by decide, by decide,
    roleV1_unrecognized rv h1 h2 h3 h4 h5 h6 h7, by decide,
    roleV2_upper_admin sAdm hAdm, roleV2_upper_no sNo hNo,
    roleV2_upper_user sUsr hUsr, roleV2_unrecognized rv h1 h2,
    by decide, by decide, by decide, by decide⟩

/-- C1 witness: the amended theorem instantiated at the mixed-case
canonical names "aDmIn", "nOdE_oFfIcEr", "uSeR" and the unrecognized
value "manager". -/
theorem c1_role_normalization_witness :
    roleFromTokenValue (some "aDmIn") = UserRole.ADMIN
    ∧ roleFromTokenValue (some "nOdE_oFfIcEr") = UserRole.NODE_OFFICER
    ∧ roleFromTokenValue (some "uSeR") = UserRole.USER
    ∧ roleFromTokenValue (some "0") = UserRole.ADMIN
    ∧ roleFromTokenValue (some "1") = UserRole.NODE_OFFICER
    ∧ roleFromTokenValue (some "2") = UserRole.USER
    ∧ roleFromTokenValue (some "manager") = UserRole.USER
    ∧ roleFromTokenValue none = UserRole.USER
    ∧ roleFromTokenValueCached (some "aDmIn") = UserRole.ADMIN
    ∧ roleFromTokenValueCached (some "nOdE_oFfIcEr") = UserRole.NODE_OFFICER
    ∧ roleFromTokenValueCached (some "uSeR") = UserRole.USER
    ∧ roleFromTokenValueCached (some "manager") = UserRole.USER
    ∧ roleFromTokenValueCached (some "0") = UserRole.USER
    ∧ roleFromTokenValueCached (some "1") = UserRole.USER
    ∧ roleFromTokenValueCached (some "2") = UserRole.USER
    ∧ roleFromTokenValueCached none = UserRole.USER :=
  c1_role_normalization_amended "manager" "aDmIn" "nOdE_oFfIcEr" "uSeR"
    (by decide) (by decide) (by decide) (by decide) (by decide) (by decide)
    (by decide) (by decide) (by decide) (by decide)

/-- Concrete JWT payload parser for a well-formed token whose claims
expire at epoch second 100. -/
def parseExp100 : String → Option JwtClaims := fun s =>
  if s = "pe" then
    some { sub := some "u1", email := some "e@x", role := some "USER", exp := some 100 }
  else none

/-- C2 counterexample: the cached `validateJwtToken` does not re-check
expiry on a cache hit. The token "h.pe.s" decodes with exp = 100; a first
call at time 0 ms caches a valid result; a second call at 200000 ms
(current time 200 s, past the exp of 100 s, within the 300 s cache
window) still returns isValid = true from the cache, contradicting the
claim that an expired token is rejected regardless of any previously
cached validation result. -/
theorem c2_cached_expiry_counterexample :
    decodeJwt parseExp100 "h.pe.s"
      = some { sub := some "u1", email := some "e@x", role := some "USER", exp := some 100 }
    ∧ (validateJwtToken parseExp100 0 [] "h.pe.s").fst.isValid = true
    ∧ 100 < 200000 / 1000
    ∧ (validateJwtToken parseExp100 200000
        (validateJwtToken parseExp100 0 [] "h.pe.s").snd "h.pe.s").fst.isValid = true := by
  decide

/-- C2 (amended): when the validation cache misses for the token string,
the cached `validateJwtToken` rejects every well-formed token whose
(nonzero) exp claim lies in the past at the time of the call, regardless
of the other claim values; a cache hit within the 300-second window is
returned unchanged and may report valid for a token that has since
expired. -/
theorem c2_expired_invalid_on_cache_miss (parse : String → Option JwtClaims)
    (nowMs : Nat) (cache cache1 : List CacheEntry) (token : String)
    (decoded : JwtClaims) (e : Nat)
    (hmiss : getCachedValidation nowMs cache token = (none, cache1))
    (hdec : decodeJwt parse token = some decoded)
    (hexp : decoded.exp = some e) (hne : e ≠ 0) (hlt : e < nowMs / 1000) :
    (validateJwtToken parse nowMs cache token).fst.isValid = false := by
  unfold validateJwtToken
  rw [hmiss]
  by_cases ht : jsTrim token = ""
  · simp [ht]
  · by_cases hc : jsContainsDot token
    · simp [ht, hc, hdec, jsExpired, hexp, hne, hlt]
    · simp [ht, hc]

/-- C2 witness: the amended theorem applied to the token "h.pe.s"
(exp = 100) on an empty cache at time 200000 ms. -/
theorem c2_expired_invalid_witness :
    (validateJwtToken parseExp100 200000 [] "h.pe.s").fst.isValid = false :=
  c2_expired_invalid_on_cache_miss parseExp100 200000 [] [] "h.pe.s"
    { sub := some "u1", email := some "e@x", role := some "USER", exp := some 100 }
    100 (by decide) (by decide) (by decide) (by decide) (by decide)

theorem getCachedValidation_snd (nowMs : Nat) (cache : List CacheEntry) (t : String) :
    (getCachedValidation nowMs cache t).snd
      = cache.filter (fun e => nowMs - e.timestamp < 5 * 60 * 1000) := by
  unfold getCachedValidation
  cases h : (cache.filter (fun e => nowMs - e.timestamp < 5 * 60 * 1000)).find?
      (fun e => e.token = t) <;> simp [h]

theorem getCachedValidation_fst (nowMs : Nat) (cache : List CacheEntry) (t : String) :
    (getCachedValidation nowMs cache t).fst
      = ((cache.filter (fun e => nowMs - e.timestamp < 5 * 60 * 1000)).find?
          (fun e => e.token = t)).map (fun e => e.result) := by
  unfold getCachedValidation
  cases h : (cache.filter (fun e => nowMs - e.timestamp < 5 * 60 * 1000)).find?
      (fun e => e.token = t) <;> simp [h]

/-- C3: the validation cache keeps at most 5 entries (inserting into a
cache of at most 5 entries leaves at most 5); inserting into a full cache
of 5 entries drops exactly the first-inserted (front) entry, FIFO; an
entry stored more than 300 seconds ago is removed from the cache by the
next get for any token; and when every entry for a token is older than
300 seconds, a get for that token returns nothing. -/
theorem c3_cache_capacity_fifo_expiry (nowMs : Nat)
    (cache cacheB : List CacheEntry) (t t6 : String) (r : ValidationResult)
    (e : CacheEntry)
    (hcapB : cacheB.length ≤ 5) (hlen : cache.length = 5)
    (hstale : e.timestamp + 300000 ≤ nowMs)
    (hall : ∀ e2 ∈ cache, e2.token = t → e2.timestamp + 300000 ≤ nowMs) :
    (cacheValidationResult nowMs cacheB t6 r).length ≤ 5
    ∧ cacheValidationResult nowMs cache t6 r
        = cache.tail ++ [{ token := t6, result := r, timestamp := nowMs }]
    ∧ e ∉ (getCachedValidation nowMs cache t).snd
    ∧ (getCachedValidation nowMs cache t).fst = none := by
  refine ⟨?_, ?_, ?_, ?_⟩
  · unfold cacheValidationResult MAX_CACHE_SIZE
    split_ifs with h
    · simp [List.length_append]
      omega
    · simp [List.length_append]
      omega
  · simp [cacheValidationResult, MAX_CACHE_SIZE, hlen]
  · rw [getCachedValidation_snd]
    intro hmem
    obtain ⟨hmem1, hp⟩ := List.mem_filter.mp hmem
    simp only [decide_eq_true_eq] at hp
    omega
  · rw [getCachedValidation_fst]
    have hnone : (cache.filter (fun e2 => nowMs - e2.timestamp < 5 * 60 * 1000)).find?
        (fun e2 => e2.token = t) = none := by
      rw [List.find?_eq_none]
      intro x hx
      obtain ⟨hx1, hx2⟩ := List.mem_filter.mp hx
      simp only [decide_eq_true_eq] at hx2 ⊢
      intro hxt
      have := hall x hx1 hxt
      omega
    simp [hnone]

/-- A concrete full (5-entry) validation cache whose front two entries are
stale (stored at time 0, queried at time 400000 ms) and carry the token
"a"; the remaining entries are fresh. -/
def c3DemoCache : List CacheEntry :=
  [ { token := "a", result := { isValid := true }, timestamp := 0 },
    { token := "a", result := { isValid := false }, timestamp := 0 },
    { token := "b", result := { isValid := true }, timestamp := 200000 },
    { token := "c", result := { isValid := true }, timestamp := 300000 },
    { token := "d", result := { isValid := true }, timestamp := 399000 } ]

/-- C3 witness: the capacity, FIFO and lazy-expiry properties evaluated on
the concrete cache `c3DemoCache` at time 400000 ms. -/
theorem c3_cache_capacity_fifo_expiry_witness :
    (cacheValidationResult 400000 c3DemoCache "f" { isValid := true }).length ≤ 5
    ∧ cacheValidationResult 400000 c3DemoCache "f" { isValid := true }
        = c3DemoCache.tail
            ++ [{ token := "f", result := { isValid := true }, timestamp := 400000 }]
    ∧ { token := "a", result := { isValid := true }, timestamp := 0 }
        ∉ (getCachedValidation 400000 c3DemoCache "a").snd
    ∧ (getCachedValidation 400000 c3DemoCache "a").fst = none :=
  c3_cache_capacity_fifo_expiry 400000 c3DemoCache c3DemoCache "a" "f"
    { isValid := true } { token := "a", result := { isValid := true }, timestamp := 0 }
    (by decide) (by decide) (by decide) (by decide)

/-- C4: on a cache miss, any token whose dot-separated segment count is
not 3, or whose decoding throws (both cases are exactly
`decodeJwt … = none`), makes the cached `validateJwtToken` return an
invalid result rather than succeed; and the middleware, given such a
token on a non-pass-through path, attaches no identity headers and issues
no redirect — it continues as if unauthenticated. -/
theorem c4_malformed_token_invalid (parse : String → Option JwtClaims)
    (nowMs : Nat) (cache cache1 : List CacheEntry) (token : String)
    (protectedRoutes : List String) (onboarded : String → Bool) (path : String)
    (hmiss : getCachedValidation nowMs cache token = (none, cache1))
    (hdec : decodeJwt parse token = none)
    (hpath : isPassThroughPath path = false) :
    (validateJwtToken parse nowMs cache token).fst.isValid = false
    ∧ middleware protectedRoutes parse onboarded nowMs cache path (some token)
        = .next := by
  constructor
  · unfold validateJwtToken
    rw [hmiss]
    by_cases ht : jsTrim token = ""
    · simp [ht]
    · by_cases hc : jsContainsDot token
      · simp [ht, hc, hdec]
      · simp [ht, hc]
  · have hblock : mwTokenBlock parse onboarded nowMs cache path token = (none, false) := by
      unfold mwTokenBlock
      by_cases h3 : (jsSplitOnDot token).length = 3
      · simp [h3, hdec]
      · simp [h3]
    simp only [isPassThroughPath, Bool.or_eq_false_iff] at hpath
    obtain ⟨⟨⟨⟨⟨⟨p1, p2⟩, p3⟩, p4⟩, p5⟩, p6⟩, p7⟩ := hpath
    simp [middleware, p1, p2, p3, p4, p5, p6, p7, hblock]

/-- C4 witness: the token "ab" (two segments) on path "/metadata/add"
with protected route prefix "/metadata" and an empty cache. -/
theorem c4_malformed_token_invalid_witness :
    (validateJwtToken (fun _ => none) 0 [] "ab").fst.isValid = false
    ∧ middleware ["/metadata"] (fun _ => none) (fun _ => false) 0 []
        "/metadata/add" (some "ab") = .next :=
  c4_malformed_token_invalid (fun _ => none) 0 [] [] "ab" ["/metadata"]
    (fun _ => false) "/metadata/add" (by decide) (by decide) (by decide)

/-- C5: with neither the access-token cookie nor the refresh-token cookie
present, `getSession` resolves immediately to no session, makes zero
network calls, and resets the in-memory refresh state (pending promise
cleared, last-refresh timestamp zeroed). -/
theorem c5_no_cookies_no_session (parse : String → Option JwtClaims)
    (nowMs : Nat) (online rand20 : Bool) (server : Option CheckResponse)
    (st : AuthClientState)
    (h1 : st.authCookie = none) (h2 : st.refreshCookie = none) :
    getSession parse nowMs online rand20 server st
      = (none,
         { st with lastSessionRefreshTimestamp := 0, pendingSessionRefresh := none },
         0) := by
  unfold getSession
  simp [h1, h2]

/-- C5 witness: a state with both cookies absent but nonzero refresh
bookkeeping resolves to no session with zero network calls and reset
bookkeeping. -/
theorem c5_no_cookies_no_session_witness :
    getSession (fun _ => none) 123456 true true none
      { authCookie := none, refreshCookie := none,
        lastSessionRefreshTimestamp := 999,
        pendingSessionRefresh := some none }
      = (none,
         { authCookie := none, refreshCookie := none,
           lastSessionRefreshTimestamp := 0, pendingSessionRefresh := none },
         0) :=
  c5_no_cookies_no_session (fun _ => none) 123456 true true none
    { authCookie := none, refreshCookie := none,
      lastSessionRefreshTimestamp := 999, pendingSessionRefresh := some none }
    rfl rfl

theorem getSession_clears_pending (parse : String → Option JwtClaims)
    (nowMs : Nat) (online rand20 : Bool) (server : Option CheckResponse)
    (st : AuthClientState) (hpend : st.pendingSessionRefresh = none) :
    (getSession parse nowMs online rand20 server st).snd.fst.pendingSessionRefresh
      = none := by
  unfold getSession
  by_cases h : (st.authCookie = none ∧ st.refreshCookie = none)
  · simp [h]
  · simp only [h, if_false, if_neg h, hpend]
    split <;> simp [hpend]

/-- C6: single-flight session retrieval — while a session-refresh promise
is pending (and a cookie is present, so the no-cookie fast path does not
fire), every further `getSession` call returns that same pending promise
with zero network calls and leaves the state untouched; and a call that
actually runs the refresh (entered with no pending promise) has cleared
the pending promise once it settles. -/
theorem c6_single_flight (parse : String → Option JwtClaims) (nowMs : Nat)
    (online rand20 : Bool) (server : Option CheckResponse)
    (st : AuthClientState) (v : Option Session)
    (hcookie : st.authCookie ≠ none ∨ st.refreshCookie ≠ none)
    (hpend : st.pendingSessionRefresh = some v) :
    getSession parse nowMs online rand20 server st = (v, st, 0)
    ∧ (getSession parse nowMs online rand20 server
        { st with pendingSessionRefresh := none }).snd.fst.pendingSessionRefresh
        = none := by
  have hcond : ¬ (st.authCookie = none ∧ st.refreshCookie = none) := by
    intro hc
    rcases hcookie with h | h
    · exact h hc.1
    · exact h hc.2
  constructor
  · unfold getSession
    simp [hcond, hpend]
  · exact getSession_clears_pending parse nowMs online rand20 server
      { st with pendingSessionRefresh := none } rfl

/-- C6 witness: with an auth cookie present and a pending refresh promise
that will resolve to no session, `getSession` returns that promise
unchanged with zero network calls; rerunning from a no-pending state
leaves the pending promise cleared. -/
theorem c6_single_flight_witness :
    getSession (fun _ => none) 50 true true none
      { authCookie := some "h.p.s", refreshCookie := none,
        lastSessionRefreshTimestamp := 0, pendingSessionRefresh := some none }
      = (none,
         { authCookie := some "h.p.s", refreshCookie := none,
           lastSessionRefreshTimestamp := 0, pendingSessionRefresh := some none },
         0)
    ∧ (getSession (fun _ => none) 50 true true none
        { authCookie := some "h.p.s", refreshCookie := none,
          lastSessionRefreshTimestamp := 0,
          pendingSessionRefresh := none }).snd.fst.pendingSessionRefresh = none :=
  c6_single_flight (fun _ => none) 50 true true none
    { authCookie := some "h.p.s", refreshCookie := none,
      lastSessionRefreshTimestamp := 0, pendingSessionRefresh := some none }
    none (by simp) rfl

/-- C7: the edge middleware passes every request to an auth-prefixed,
API-prefixed or static-asset path through unmodified regardless of cookie
state; and redirects every request to a protected path (exact or prefix
match against the protected-route list, the path not being one of the
pass-through classes) with no access-token cookie to
`/auth/signin?from=<original path>`. -/
theorem c7_gatekeeper_passthrough_and_redirect (protectedRoutes : List String)
    (parse : String → Option JwtClaims) (onboarded : String → Bool)
    (nowMs : Nat) (cache : List CacheEntry) (path1 path2 : String)
    (tok : Option String)
    (hpass : isPassThroughPath path1 = true)
    (hnot : isPassThroughPath path2 = false)
    (hprot : isProtectedRoute protectedRoutes path2 = true) :
    middleware protectedRoutes parse onboarded nowMs cache path1 tok = .next
    ∧ middleware protectedRoutes parse onboarded nowMs cache path2 none
        = .redirectSignin path2 := by
  constructor
  · simp only [isPassThroughPath, Bool.or_eq_true] at hpass
    rcases hpass with ((((((h | h) | h) | h) | h) | h) | h) <;>
      by_cases h1 : jsStartsWith path1 "/auth" = true <;>
      by_cases h2 : jsStartsWith path1 "/api" = true <;>
      simp [middleware, h, h1, h2]
  · simp only [isPassThroughPath, Bool.or_eq_false_iff] at hnot
    obtain ⟨⟨⟨⟨⟨⟨p1, p2⟩, p3⟩, p4⟩, p5⟩, p6⟩, p7⟩ := hnot
    simp [middleware, p1, p2, p3, p4, p5, p6, p7, hprot]

/-- C7 witness: "/auth/signin" passes through even with a cookie present,
and "/metadata/add" with protected prefix "/metadata" and no cookie
redirects to sign-in carrying the original path. -/
theorem c7_gatekeeper_witness :
    middleware ["/metadata"] (fun _ => none) (fun _ => false) 0 []
      "/auth/signin" (some "h.p.s") = .next
    ∧ middleware ["/metadata"] (fun _ => none) (fun _ => false) 0 []
        "/metadata/add" none = .redirectSignin "/metadata/add" :=
  c7_gatekeeper_passthrough_and_redirect ["/metadata"] (fun _ => none)
    (fun _ => false) 0 [] "/auth/signin" "/metadata/add" (some "h.p.s")
    (by decide) (by decide) (by decide)

/-- C8: login failure is uniform — a nonexistent email and an existing
email with a wrong password produce the identical error, HTTP 401 with
message "Invalid credentials", so the two failure causes are
indistinguishable to the caller. -/
theorem c8_login_enumeration_resistance (db : List DbUser)
    (cmp : String → String → Bool) (signAccess signRefresh : DbUser → String)
    (e1 p1 e2 p2 : String) (u : DbUser)
    (h1 : db.find? (fun x => x.email = e1) = none)
    (h2 : db.find? (fun x => x.email = e2) = some u)
    (h3 : cmp p2 u.password = false) :
    AuthService.login db cmp signAccess signRefresh e1 p1
      = .error (401, "Invalid credentials")
    ∧ AuthService.login db cmp signAccess signRefresh e2 p2
      = .error (401, "Invalid credentials") := by
  constructor
  · unfold AuthService.login
    rw [h1]
  · unfold AuthService.login
    rw [h2]
    simp [h3]

/-- C8 witness: a one-user database; login with an unknown email and login
with the known email but wrong password both yield 401 "Invalid
credentials". -/
theorem c8_login_enumeration_witness :
    AuthService.login
      [{ id := "u1", email := "alice@x", password := "secret", name := some "Alice",
         role := UserRole.USER, organization := none, department := none }]
      (fun a b => a = b) (fun _ => "at") (fun _ => "rt") "nobody@x" "pw"
      = .error (401, "Invalid credentials")
    ∧ AuthService.login
        [{ id := "u1", email := "alice@x", password := "secret", name := some "Alice",
           role := UserRole.USER, organization := none, department := none }]
        (fun a b => a = b) (fun _ => "at") (fun _ => "rt") "alice@x" "wrong"
      = .error (401, "Invalid credentials") :=
  c8_login_enumeration_resistance
    [{ id := "u1", email := "alice@x", password := "secret", name := some "Alice",
       role := UserRole.USER, organization := none, department := none }]
    (fun a b => a = b) (fun _ => "at") (fun _ => "rt") "nobody@x" "pw" "alice@x" "wrong"
    { id := "u1", email := "alice@x", password := "secret", name := some "Alice",
      role := UserRole.USER, organization := none, department := none }
    (by decide) (by decide) (by decide)

theorem find?_token_after_delete (l : List VerificationToken) (tok : String) :
    (l.filter (fun vt => vt.token ≠ tok)).find? (fun vt => vt.token = tok) = none := by
  rw [List.find?_eq_none]
  intro x hx
  obtain ⟨hx1, hx2⟩ := List.mem_filter.mp hx
  simp only [decide_eq_true_eq, ne_eq, decide_not, Bool.not_eq_true] at hx2 ⊢
  simpa using hx2

/-- C9: password-reset tokens are single-use. A successful `resetPassword`
updates the identified user's password to the new hash and deletes the
token, so an immediate second call with the same token fails with 400
"Invalid or expired token"; an absent token fails with 400 leaving the
database untouched; a past-expiry token fails with 400 and is deleted on
detection. -/
theorem c9_reset_token_single_use (hashPw : String → String) (now : Nat)
    (tok newPw : String) (db db2 db3 : ResetDb)
    (vt vt3 : VerificationToken) (user : DbUser)
    (hfind : db.tokens.find? (fun x => x.token = tok) = some vt)
    (hnotexp : ¬ (vt.expires < now))
    (huser : db.users.find? (fun x => x.email = vt.identifier) = some user)
    (habs : db2.tokens.find? (fun x => x.token = tok) = none)
    (hfind3 : db3.tokens.find? (fun x => x.token = tok) = some vt3)
    (hexp3 : vt3.expires < now) :
    (AuthService.resetPassword hashPw now tok newPw db).fst = .ok ()
    ∧ (AuthService.resetPassword hashPw now tok newPw db).snd.users
        = db.users.map (fun u =>
            if u.id = user.id then { u with password := hashPw newPw } else u)
    ∧ (AuthService.resetPassword hashPw now tok newPw db).snd.tokens.find?
        (fun x => x.token = tok) = none
    ∧ (AuthService.resetPassword hashPw now tok newPw
        (AuthService.resetPassword hashPw now tok newPw db).snd).fst
        = .error (400, "Invalid or expired token")
    ∧ AuthService.resetPassword hashPw now tok newPw db2
        = (.error (400, "Invalid or expired token"), db2)
    ∧ (AuthService.resetPassword hashPw now tok newPw db3).fst
        = .error (400, "Token has expired")
    ∧ (AuthService.resetPassword hashPw now tok newPw db3).snd.tokens.find?
        (fun x => x.token = tok) = none := by
  have hrun : AuthService.resetPassword hashPw now tok newPw db
      = (.ok (),
         { db with
             users := db.users.map (fun u =>
               if u.id = user.id then { u with password := hashPw newPw } else u)
             tokens := db.tokens.filter (fun x => x.token ≠ tok) }) := by
    unfold AuthService.resetPassword
    rw [hfind]
    simp [hnotexp, huser]
  have hrun3 : AuthService.resetPassword hashPw now tok newPw db3
      = (.error (400, "Token has expired"),
         { db3 with tokens := db3.tokens.filter (fun x => x.token ≠ tok) }) := by
    unfold AuthService.resetPassword
    rw [hfind3]
    simp [hexp3]
  refine ⟨?_, ?_, ?_, ?_, ?_, ?_, ?_⟩
  · rw [hrun]
  · rw [hrun]
  · rw [hrun]
    exact find?_token_after_delete db.tokens tok
  · rw [hrun]
    unfold AuthService.resetPassword
    rw [show ({ db with
             users := db.users.map (fun u =>
               if u.id = user.id then { u with password := hashPw newPw } else u)
             tokens := db.tokens.filter (fun x => x.token ≠ tok) } : ResetDb).tokens.find?
        (fun x => x.token = tok) = none from find?_token_after_delete db.tokens tok]
  · unfold AuthService.resetPassword
    rw [habs]
  · rw [hrun3]
  · rw [hrun3]
    exact find?_token_after_delete db3.tokens tok

/-- Concrete database slice for the C9 witness: one valid reset token for
alice and one expired-token variant. -/
def c9Db : ResetDb :=
  { tokens := [{ identifier := "alice@x", token := "tk", expires := 1000 }],
    users := [{ id := "u1", email := "alice@x", password := "old", name := none,
                role := UserRole.USER, organization := none, department := none }] }

/-- Database slice with an expired copy of the same reset token. -/
def c9DbExpired : ResetDb :=
  { tokens := [{ identifier := "alice@x", token := "tk", expires := 100 }],
    users := [] }

/-- C9 witness: at time 500, consuming the token "tk" on `c9Db` succeeds,
rewrites alice's password, deletes the token, and a second consumption
fails 400; an empty database fails 400; the expired variant fails 400 with
the token deleted. -/
theorem c9_reset_token_single_use_witness :
    (AuthService.resetPassword (fun s => s ++ "h") 500 "tk" "np" c9Db).fst = .ok ()
    ∧ (AuthService.resetPassword (fun s => s ++ "h") 500 "tk" "np" c9Db).snd.users
        = c9Db.users.map (fun u =>
            if u.id = "u1" then { u with password := "np" ++ "h" } else u)
    ∧ (AuthService.resetPassword (fun s => s ++ "h") 500 "tk" "np" c9Db).snd.tokens.find?
        (fun x => x.token = "tk") = none
    ∧ (AuthService.resetPassword (fun s => s ++ "h") 500 "tk" "np"
        (AuthService.resetPassword (fun s => s ++ "h") 500 "tk" "np" c9Db).snd).fst
        = .error (400, "Invalid or expired token")
    ∧ AuthService.resetPassword (fun s => s ++ "h") 500 "tk" "np"
        { tokens := [], users := [] }
        = (.error (400, "Invalid or expired token"), { tokens := [], users := [] })
    ∧ (AuthService.resetPassword (fun s => s ++ "h") 500 "tk" "np" c9DbExpired).fst
        = .error (400, "Token has expired")
    ∧ (AuthService.resetPassword (fun s => s ++ "h") 500 "tk" "np"
        c9DbExpired).snd.tokens.find? (fun x => x.token = "tk") = none :=
  c9_reset_token_single_use (fun s => s ++ "h") 500 "tk" "np" c9Db
    { tokens := [], users := [] } c9DbExpired
    { identifier := "alice@x", token := "tk", expires := 1000 }
    { identifier := "alice@x", token := "tk", expires := 100 }
    { id := "u1", email := "alice@x", password := "old", name := none,
      role := UserRole.USER, organization := none, department := none }
    (by decide) (by decide) (by decide) (by decide) (by decide) (by decide)

/-- C10: `requireRole` grants access to every authenticated ADMIN user
regardless of the `allowedRoles` list — for every list, including lists
that do not contain ADMIN, the ADMIN user is returned rather than
redirected to /unauthorized; only non-ADMIN users are checked against the
list. -/
theorem c10_admin_bypasses_allowed_roles (parse : String → Option JwtClaims)
    (nowMs : Nat) (cache : List CacheEntry) (tok : Option String)
    (allowedRoles : List UserRole) (u : AuthUser)
    (hauth : requireAuth parse nowMs cache tok none = .ok u)
    (hadmin : u.role = .ADMIN) :
    requireRole parse nowMs cache tok allowedRoles = .ok u := by
  unfold requireRole
  rw [hauth]
  simp [hadmin]

/-- Concrete JWT payload parser for a token whose role claim is "ADMIN". -/
def parseAdmin : String → Option JwtClaims := fun s =>
  if s = "pa" then some { sub := some "u1", role := some "ADMIN" } else none

/-- C10 witness: an ADMIN token is granted access by `requireRole` even
though the allowed-roles list [NODE_OFFICER] does not contain ADMIN. -/
theorem c10_admin_bypasses_allowed_roles_witness :
    requireRole parseAdmin 0 [] (some "h.pa.s") [UserRole.NODE_OFFICER]
      = .ok { id := "u1", email := "unknown", name := "Authenticated User",
              role := UserRole.ADMIN }
    ∧ [UserRole.NODE_OFFICER].contains UserRole.ADMIN = false :=
  ⟨c10_admin_bypasses_allowed_roles parseAdmin 0 [] (some "h.pa.s")
      [UserRole.NODE_OFFICER]
      { id := "u1", email := "unknown", name := "Authenticated User",
        role := UserRole.ADMIN }
      rfl rfl,
   by decide⟩
